import Mathlib

/-!
Verification development for the presence client (useLanyard), the bootstrap
fetch (getInitialLanyardState) and the reading-time formatter
(getHumanReadingTime) of the didinele/website repository.

The presence client is embedded as an explicit state machine: the mutable
closure variables of useLanyard (the store `data`, the AbortController
`cleanup`, the `socket` variable, the `heartbeatInterval` timer handle) become
fields of a `World` record, and the event loop becomes an executable `step`
function over environment events (socket open / message / close, timer
firings).  Connection epochs and AbortController generations are numbered by
the count of `connect()` calls; a listener registered by the n-th `connect()`
is alive exactly when generation n has not been aborted.  Messages sent on the
wire are recorded structurally (`SentMsg`) together with a serializer giving
the exact JSON text the code produces.
-/

/-- One activity entry.  The client treats activities as an opaque payload and
never inspects them, so the embedding keeps only an opaque raw text. -/
structure GatewayActivity where
  raw : String
deriving DecidableEq

/-- The identity record inside a Presence, as declared in useLanyard. -/
structure DiscordUser where
  avatar : String
  discriminator : String
  id : String
  public_flags : Nat
  username : String
deriving DecidableEq

/-- The Presence snapshot tracked by the client, as declared in useLanyard.
The open string-to-string mapping kv is embedded as an association list. -/
structure Presence where
  active_on_discord_desktop : Bool
  active_on_discord_mobile : Bool
  activities : List GatewayActivity
  discord_status : String
  discord_user : DiscordUser
  kv : List (String × String)
deriving DecidableEq

/-- A PRESENCE_UPDATE payload as it can arrive on the wire: each field of a
Presence, optionally present.  (The TypeScript type annotates the payload as a
full Presence, but the JSON parsed at runtime may omit fields, which is the
situation the merge semantics are about.) -/
structure PresenceDelta where
  active_on_discord_desktop : Option Bool
  active_on_discord_mobile : Option Bool
  activities : Option (List GatewayActivity)
  discord_status : Option String
  discord_user : Option DiscordUser
  kv : Option (List (String × String))
deriving DecidableEq

/-- Modelled from the spec: shallow merge of the extra (kv) mapping — keys
supplied by the update overwrite, remaining keys keep their existing values. -/
def kvMerge (base upd : List (String × String)) : List (String × String) :=
  upd ++ base.filter (fun e => !(upd.any (fun u => u.1 = e.1)))

/-- Modelled from the spec: the effect of the solid-js store update
reconcile(u, with merge set) used by handleEvent on a PRESENCE_UPDATE.  The
reconcile implementation lives in the external solid-js library, not in this
repository, so it is taken at the spec's description: per-field overwrite
where the incoming record supplies a value, preserving existing fields
otherwise; activities replaced as a whole; kv merged shallowly. -/
def reconcileMerge (s : Presence) (u : PresenceDelta) : Presence :=
  { active_on_discord_desktop := u.active_on_discord_desktop.getD s.active_on_discord_desktop
    active_on_discord_mobile := u.active_on_discord_mobile.getD s.active_on_discord_mobile
    activities := u.activities.getD s.activities
    discord_status := u.discord_status.getD s.discord_status
    discord_user := u.discord_user.getD s.discord_user
    kv := match u.kv with
      | none => s.kv
      | some m => kvMerge s.kv m }

/-- Body of an Event envelope (op 0), discriminated by its type tag t.  The
otherEvent constructor stands for any tag other than the two known ones. -/
inductive EventBody where
  | initState (entries : List (String × Presence))
  | presenceUpdate (u : PresenceDelta)
  | otherEvent (t : String)
deriving DecidableEq

/-- The type tag t carried by an Event envelope. -/
def tagOf : EventBody → String
  | EventBody.initState _ => "INIT_STATE"
  | EventBody.presenceUpdate _ => "PRESENCE_UPDATE"
  | EventBody.otherEvent t => t

/-- An incoming server message.  hello is op 1, event is op 0, otherOp n is a
message with any other opcode n. -/
inductive IncomingMsg where
  | hello (heartbeat_interval : Nat)
  | event (body : EventBody)
  | otherOp (op : Nat)
deriving DecidableEq

/-- The opcode of an incoming message (OpCode: Event = 0, Hello = 1). -/
def opOf : IncomingMsg → Nat
  | IncomingMsg.event _ => 0
  | IncomingMsg.hello _ => 1
  | IncomingMsg.otherOp n => n

/-- A message the client sends on the wire, recorded structurally: subscribe
is the Initialize packet built in the open listener, heartbeat is the fixed
payload sent by the interval timer. -/
inductive SentMsg where
  | subscribe (ids : List String)
  | heartbeat
deriving DecidableEq

/-- Renders a list of ids as the JSON array the code produces inside the
Initialize packet. -/
def quotedIds : List String → String
  | [] => ""
  | [id] => "\"" ++ id ++ "\""
  | id :: rest => "\"" ++ id ++ "\"," ++ quotedIds rest

/-- The exact wire text of each sent message: JSON.stringify of the
InitializePacket literal (keys in insertion order: op, then d), and the fixed
heartbeat text with op 3 and no d field. -/
def serializeSent : SentMsg → String
  | SentMsg.subscribe ids =>
      "\x7b\"op\":2,\"d\":\x7b\"subscribe_to_ids\":[" ++ quotedIds ids ++ "]\x7d\x7d"
  | SentMsg.heartbeat => "\x7b\"op\":3\x7d"

/-- The full closure state of one useLanyard instance plus its observable
effects.  connCount counts connect() calls; the n-th connect() creates both
AbortController generation n and socket n, so listeners of socket n are scoped
by generation n.  sent records (socket id, message) pairs, most recent
first. -/
structure World where
  userId : String
  data : Presence
  connCount : Nat
  cleanupGen : Nat
  abortedGens : List Nat
  socket : Option Nat
  closedSockets : List Nat
  heartbeatInterval : Option Nat
  activeTimers : List (Nat × Nat)
  nextTimerId : Nat
  sent : List (Nat × SentMsg)
deriving DecidableEq

/-- The state right after the useLanyard body ran with an initial presence:
store seeded, AbortController generation 0 allocated, no socket, no timer. -/
def initWorld (userId : String) (p : Presence) : World :=
  { userId := userId
    data := p
    connCount := 0
    cleanupGen := 0
    abortedGens := []
    socket := none
    closedSockets := []
    heartbeatInterval := none
    activeTimers := []
    nextTimerId := 0
    sent := [] }

/-- The connect() body: allocate a fresh AbortController and a fresh socket
(numbered by the call count) and register this epoch's listeners under the
fresh generation. -/
def connect (w : World) : World :=
  { w with
    connCount := w.connCount + 1
    cleanupGen := w.connCount + 1
    socket := some (w.connCount + 1) }

/-- AbortController.abort() on generation g: aborting is idempotent. -/
def abortGen (w : World) (g : Nat) : World :=
  { w with abortedGens := if g ∈ w.abortedGens then w.abortedGens else g :: w.abortedGens }

/-- Whether the listeners registered for socket k can still run: socket k
exists and its scoping generation k was never aborted. -/
def listenerAlive (w : World) (k : Nat) : Bool :=
  decide (1 ≤ k) && decide (k ≤ w.connCount) && !(decide (k ∈ w.abortedGens))

/-- The guarded clearInterval line: if the heartbeatInterval variable holds a
handle, cancel that timer (the variable itself keeps the stale handle, as in
the source). -/
def clearHeartbeatTimer (w : World) : World :=
  { w with
    activeTimers := match w.heartbeatInterval with
      | none => w.activeTimers
      | some tid => w.activeTimers.filter (fun t => decide (t.1 ≠ tid)) }

/-- The handleEvent function: INIT_STATE takes the first value of the payload
mapping as the new snapshot (Object.values(d)[0]); PRESENCE_UPDATE reconciles
the payload into the snapshot with merge semantics; any other tag falls
through the switch and changes nothing.  An empty INIT_STATE mapping is kept
as no change (the source would hand undefined to the store setter; the remote
service always sends the subscribed ids, and no claim depends on this case). -/
def handleEvent (current : Presence) : EventBody → Presence
  | EventBody.initState entries => ((entries.map Prod.snd).head?).getD current
  | EventBody.presenceUpdate u => reconcileMerge current u
  | EventBody.otherEvent _ => current

/-- The message listener body: op 1 (Hello) clears any previous heartbeat
timer and starts a fresh interval timer at the received period; op 0 (Event)
delegates to handleEvent; any other opcode falls through the switch. -/
def onMessage (w : World) (m : IncomingMsg) : World :=
  match m with
  | IncomingMsg.hello interval =>
      { clearHeartbeatTimer w with
        heartbeatInterval := some w.nextTimerId
        activeTimers := (w.nextTimerId, interval) :: (clearHeartbeatTimer w).activeTimers
        nextTimerId := w.nextTimerId + 1 }
  | IncomingMsg.event body => { w with data := handleEvent w.data body }
  | IncomingMsg.otherOp _ => w

/-- Environment events driving the client: connection lifecycle events on a
numbered socket and firings of a numbered interval timer. -/
inductive Ev where
  | sockOpen (k : Nat)
  | sockMsg (k : Nat) (m : IncomingMsg)
  | sockClose (k : Nat)
  | timerFire (tid : Nat)
deriving DecidableEq

/-- One event-loop step.  Socket listeners run only while their scoping
generation is unaborted.  The open listener sends the Initialize packet
through the current socket variable; the close listener aborts the current
generation and immediately reconnects; a pending timer firing sends the fixed
heartbeat payload through the current socket variable (the interval callback
closes over the mutable socket variable, not over one epoch's socket). -/
def step (w : World) : Ev → World
  | Ev.sockOpen k =>
      if listenerAlive w k then
        match w.socket with
        | some s => { w with sent := (s, SentMsg.subscribe [w.userId]) :: w.sent }
        | none => w
      else w
  | Ev.sockMsg k m => if listenerAlive w k then onMessage w m else w
  | Ev.sockClose k =>
      if listenerAlive w k then connect (abortGen w w.cleanupGen) else w
  | Ev.timerFire tid =>
      if w.activeTimers.any (fun t => t.1 = tid) then
        match w.socket with
        | some s => { w with sent := (s, SentMsg.heartbeat) :: w.sent }
        | none => w
      else w

/-- Runs a sequence of environment events. -/
def run (w : World) : List Ev → World
  | [] => w
  | e :: es => run (step w e) es

/-- The useLanyard entry point: with no initial presence it returns null
before creating any state; otherwise it seeds the store and, off the server,
runs connect() once.  The returned World is the live client state the caller
observes. -/
def useLanyard (userId : String) (initialPresence : Option Presence) (isServer : Bool) :
    Option World :=
  match initialPresence with
  | none => none
  | some p =>
      if isServer then some (initWorld userId p) else some (connect (initWorld userId p))

/-- The socket?.close() line of the teardown closure: mark the current socket
closed if there is one (closing an already closed socket is a no-op, and with
the old generation aborted the resulting close event triggers no reconnect). -/
def markClosed (w : World) : World :=
  { w with
    closedSockets := match w.socket with
      | none => w.closedSockets
      | some s => if s ∈ w.closedSockets then w.closedSockets else s :: w.closedSockets }

/-- The onCleanup teardown closure, line by line: close the socket if any,
abort the current AbortController, and clear the heartbeat timer if the handle
variable is set.  Total — nothing here can fail. -/
def teardown (w : World) : World :=
  clearHeartbeatTimer (abortGen (markClosed w) (markClosed w).cleanupGen)

/-- Well-formedness of a world, as maintained by the machine: aborted
generations never run ahead of the connect count, every pending timer is the
one the heartbeatInterval variable currently holds, and the socket variable
(when set) names the newest epoch. -/
def wf (w : World) : Bool :=
  w.abortedGens.all (fun g => decide (g ≤ w.connCount)) &&
  w.activeTimers.all (fun t => decide (w.heartbeatInterval = some t.1)) &&
  (match w.socket with
   | none => true
   | some k => decide (k = w.cleanupGen) && decide (k = w.connCount)) &&
  decide (w.cleanupGen ≤ w.connCount)

/-- Count of heartbeat payloads among the sent messages. -/
def countHeartbeats (l : List (Nat × SentMsg)) : Nat :=
  (l.filter (fun m => m.2 = SentMsg.heartbeat)).length

/-- Whether an environment event is the arrival of a Hello message. -/
def isHelloEv : Ev → Bool
  | Ev.sockMsg _ (IncomingMsg.hello _) => true
  | _ => false

/-- The JSON body of the bootstrap REST response. -/
structure RestResponse where
  data : Presence
  success : Bool
deriving DecidableEq

/-- The getInitialLanyardState bootstrap fetch, with the network outcome made
explicit: ok is the HTTP ok flag of the response, text its raw body text, body
its parsed JSON.  A non-ok status throws the body text; success false throws
the fixed message; otherwise the data field is returned unchanged. -/
def getInitialLanyardState (ok : Bool) (text : String) (body : RestResponse) :
    Except String Presence :=
  if !ok then Except.error text
  else if !body.success then Except.error "Lanyard broke"
  else Except.ok body.data

/-- DateTime.plus with a whole number of minutes, on a millisecond timeline
embedded in the rationals. -/
def luxonPlusMinutes (dt : ℚ) (n : ℤ) : ℚ :=
  dt + n * 60000

/-- DateTime.diff(dt, [minutes]).as(minutes): the elapsed time in minutes. -/
def luxonDiffAsMinutes (dt doneAt : ℚ) : ℚ :=
  (doneAt - dt) / 60000

/-- Rendering of a JS number by string interpolation: an integral number
prints without a decimal point.  (Only the integral case is ever reached in
getHumanReadingTime; the fallback branch is immaterial.) -/
def jsNumberToString (q : ℚ) : String :=
  if q.den = 1 then toString q.num else toString q

/-- The getHumanReadingTime formatter.  The reading-time library is external
to the repository, so the markdown input is abstracted to the minutes estimate
that library returns; now stands for DateTime.now(). -/
def getHumanReadingTime (now minutes : ℚ) : String :=
  jsNumberToString (luxonDiffAsMinutes now (luxonPlusMinutes now ⌈minutes⌉)) ++ " minute read"

/-- A concrete Presence used by the witnesses. -/
def samplePresence : Presence :=
  { active_on_discord_desktop := true
    active_on_discord_mobile := false
    activities := []
    discord_status := "online"
    discord_user :=
      { avatar := "a", discriminator := "0", id := "223703707118731264",
        public_flags := 0, username := "didinele" }
    kv := [] }

/-- A second concrete Presence, distinct from samplePresence. -/
def samplePresence2 : Presence :=
  { samplePresence with discord_status := "dnd", active_on_discord_mobile := true }

/-- A concrete partial update carrying only a new discord_status. -/
def sampleDelta : PresenceDelta :=
  { active_on_discord_desktop := none
    active_on_discord_mobile := none
    activities := none
    discord_status := some "idle"
    discord_user := none
    kv := none }

/-- The world of a freshly mounted client for the sample user, after the first
connect() call. -/
def sampleWorld : World :=
  connect (initWorld "223703707118731264" samplePresence)

/-! Helper lemmas about the machine. -/

/-- When every pending timer carries the handle currently stored in the
heartbeatInterval variable, the guarded clearInterval cancels them all. -/
theorem clearHeartbeatTimer_activeTimers_eq_nil (w : World)
    (hall : ∀ t ∈ w.activeTimers, w.heartbeatInterval = some t.1) :
    (clearHeartbeatTimer w).activeTimers = [] := by
  cases hhb : w.heartbeatInterval with
  | none =>
      cases hl : w.activeTimers with
      | nil => simp [clearHeartbeatTimer, hhb, hl]
      | cons t ts =>
          have h := hall t (by rw [hl]; exact List.mem_cons_self t ts)
          rw [hhb] at h
          exact absurd h (by simp)
  | some tid =>
      show (match w.heartbeatInterval with
            | none => w.activeTimers
            | some tid2 => w.activeTimers.filter (fun t => decide (t.1 ≠ tid2))) = []
      rw [hhb, List.filter_eq_nil_iff]
      intro t ht
      have h := hall t ht
      rw [hhb] at h
      simp only [Option.some.injEq] at h
      simp [h]

/-- Unpacks the boolean well-formedness check into its components. -/
theorem wf_spec (w : World) (hwf : wf w = true) :
    (∀ g ∈ w.abortedGens, g ≤ w.connCount) ∧
    (∀ t ∈ w.activeTimers, w.heartbeatInterval = some t.1) ∧
    (∀ k, w.socket = some k → k = w.cleanupGen ∧ k = w.connCount) ∧
    w.cleanupGen ≤ w.connCount := by
  rw [wf] at hwf
  simp only [Bool.and_eq_true, List.all_eq_true, decide_eq_true_eq] at hwf
  obtain ⟨⟨⟨hab, htm⟩, hsock⟩, hgc⟩ := hwf
  refine ⟨hab, htm, ?_, hgc⟩
  intro k hk
  rw [hk] at hsock
  simpa using hsock

/-- After a handled close (abort of the old generation, then reconnect), the
listeners registered by the fresh connect call are alive. -/
theorem alive_after_reconnect (w : World) (hwf : wf w = true) :
    listenerAlive (connect (abortGen w w.cleanupGen)) (w.connCount + 1) = true := by
  obtain ⟨hab, -, -, hgc⟩ := wf_spec w hwf
  have hnotmem : ¬(w.connCount + 1 ∈ (connect (abortGen w w.cleanupGen)).abortedGens) := by
    intro hin
    have hin' : w.connCount + 1 ∈
        (if w.cleanupGen ∈ w.abortedGens then w.abortedGens
         else w.cleanupGen :: w.abortedGens) := hin
    split at hin'
    · exact absurd (hab _ hin') (by omega)
    · rcases List.mem_cons.mp hin' with h | h
      · omega
      · exact absurd (hab _ h) (by omega)
  rw [listenerAlive]
  have h1 : decide (1 ≤ w.connCount + 1) = true := by simp
  have h2 : decide (w.connCount + 1 ≤ (connect (abortGen w w.cleanupGen)).connCount) = true := by
    simp [connect, abortGen]
  have h3 : decide (w.connCount + 1 ∈ (connect (abortGen w w.cleanupGen)).abortedGens) = false := by
    simpa using hnotmem
  rw [h1, h2, h3]
  rfl

/-- A handled close event runs exactly the close listener body: abort the
current generation, then reconnect. -/
theorem step_sockClose_eq (w : World) (k : Nat) (ha : listenerAlive w k = true) :
    step w (Ev.sockClose k) = connect (abortGen w w.cleanupGen) := by
  simp [step, ha]

/-- The generation passed to abort is recorded as aborted. -/
theorem mem_abortGen (w : World) (g : Nat) : g ∈ (abortGen w g).abortedGens := by
  by_cases h : g ∈ w.abortedGens <;> simp [abortGen, h]

/-- A step whose event is not a Hello leaves the pending timers unchanged. -/
theorem step_activeTimers_of_not_hello (w : World) (e : Ev) (he : isHelloEv e = false) :
    (step w e).activeTimers = w.activeTimers := by
  cases e with
  | sockOpen k =>
      show (if listenerAlive w k then _ else w).activeTimers = w.activeTimers
      split
      · cases w.socket <;> rfl
      · rfl
  | sockMsg k m =>
      show (if listenerAlive w k then onMessage w m else w).activeTimers = w.activeTimers
      split
      · cases m with
        | hello interval => simp [isHelloEv] at he
        | event body => rfl
        | otherOp n => rfl
      · rfl
  | sockClose k =>
      show (if listenerAlive w k then connect (abortGen w w.cleanupGen) else w).activeTimers
            = w.activeTimers
      split <;> rfl
  | timerFire tid =>
      show (if w.activeTimers.any (fun t => t.1 = tid) then _ else w).activeTimers
            = w.activeTimers
      split
      · cases w.socket <;> rfl
      · rfl

/-- A step with no timers pending and no Hello arriving sends no heartbeat. -/
theorem step_countHeartbeats_of_not_hello (w : World) (e : Ev) (he : isHelloEv e = false)
    (ht : w.activeTimers = []) :
    countHeartbeats (step w e).sent = countHeartbeats w.sent := by
  cases e with
  | sockOpen k =>
      show countHeartbeats (if listenerAlive w k then _ else w).sent = countHeartbeats w.sent
      split
      · cases w.socket <;> simp [countHeartbeats]
      · rfl
  | sockMsg k m =>
      show countHeartbeats (if listenerAlive w k then onMessage w m else w).sent
            = countHeartbeats w.sent
      split
      · cases m with
        | hello interval => simp [isHelloEv] at he
        | event body => rfl
        | otherOp n => rfl
      · rfl
  | sockClose k =>
      show countHeartbeats (if listenerAlive w k then connect (abortGen w w.cleanupGen) else w).sent
            = countHeartbeats w.sent
      split <;> rfl
  | timerFire tid =>
      show countHeartbeats (if w.activeTimers.any (fun t => t.1 = tid) then _ else w).sent
            = countHeartbeats w.sent
      rw [ht]
      rfl

/-- Under events containing no Hello, a world with no pending timer never
sends a heartbeat. -/
theorem run_no_heartbeat_of_no_hello (evs : List Ev) : ∀ w : World,
    w.activeTimers = [] →
    evs.all (fun e => !isHelloEv e) = true →
    (run w evs).activeTimers = [] ∧
    countHeartbeats (run w evs).sent = countHeartbeats w.sent := by
  induction evs with
  | nil => intro w h1 _; exact ⟨h1, rfl⟩
  | cons e es ih =>
      intro w h1 hall
      rw [List.all_cons, Bool.and_eq_true] at hall
      obtain ⟨he, hall⟩ := hall
      rw [Bool.not_eq_true'] at he
      have h1' : (step w e).activeTimers = [] := by
        rw [step_activeTimers_of_not_hello w e he, h1]
      have hr : run w (e :: es) = run (step w e) es := rfl
      have := ih (step w e) h1' hall
      rw [hr]
      refine ⟨this.1, ?_⟩
      rw [this.2, step_countHeartbeats_of_not_hello w e he h1]

/-! Claim theorems. -/

/-- C1: processing a PRESENCE_UPDATE event merges the payload into the
existing snapshot: every field supplied by the update takes the update's
value, every field absent from the update keeps the prior snapshot's value,
and the activities list is replaced as a whole when supplied (kept unchanged
when absent). -/
theorem presence_update_merge_semantics (w : World) (k : Nat) (u : PresenceDelta)
    (ha : listenerAlive w k = true) :
    (step w (Ev.sockMsg k (IncomingMsg.event (EventBody.presenceUpdate u)))).data
        = reconcileMerge w.data u ∧
    (∀ v, u.discord_status = some v → (reconcileMerge w.data u).discord_status = v) ∧
    (u.discord_status = none →
        (reconcileMerge w.data u).discord_status = w.data.discord_status) ∧
    (∀ v, u.active_on_discord_desktop = some v →
        (reconcileMerge w.data u).active_on_discord_desktop = v) ∧
    (u.active_on_discord_desktop = none →
        (reconcileMerge w.data u).active_on_discord_desktop
          = w.data.active_on_discord_desktop) ∧
    (∀ v, u.active_on_discord_mobile = some v →
        (reconcileMerge w.data u).active_on_discord_mobile = v) ∧
    (u.active_on_discord_mobile = none →
        (reconcileMerge w.data u).active_on_discord_mobile
          = w.data.active_on_discord_mobile) ∧
    (∀ v, u.discord_user = some v → (reconcileMerge w.data u).discord_user = v) ∧
    (u.discord_user = none → (reconcileMerge w.data u).discord_user = w.data.discord_user) ∧
    (∀ v, u.activities = some v → (reconcileMerge w.data u).activities = v) ∧
    (u.activities = none → (reconcileMerge w.data u).activities = w.data.activities) ∧
    (u.kv = none → (reconcileMerge w.data u).kv = w.data.kv) := by
  refine ⟨by simp [step, ha, onMessage, handleEvent], ?_, ?_, ?_, ?_, ?_, ?_, ?_, ?_, ?_,
    ?_, ?_⟩
  · intro v h; simp [reconcileMerge, h]
  · intro h; simp [reconcileMerge, h]
  · intro v h; simp [reconcileMerge, h]
  · intro h; simp [reconcileMerge, h]
  · intro v h; simp [reconcileMerge, h]
  · intro h; simp [reconcileMerge, h]
  · intro v h; simp [reconcileMerge, h]
  · intro h; simp [reconcileMerge, h]
  · intro v h; simp [reconcileMerge, h]
  · intro h; simp [reconcileMerge, h]
  · intro h; simp [reconcileMerge, h]

/-- Witness for C1 at a concrete world and a concrete update supplying only
discord_status. -/
theorem presence_update_merge_semantics_witness :
    listenerAlive sampleWorld 1 = true ∧
    (step sampleWorld (Ev.sockMsg 1 (IncomingMsg.event (EventBody.presenceUpdate sampleDelta)))).data
        = reconcileMerge sampleWorld.data sampleDelta :=
  ⟨by decide, (presence_update_merge_semantics sampleWorld 1 sampleDelta (by decide)).1⟩

/-- C2: processing an INIT_STATE event whose payload mapping has a first
value (in iteration order) replaces the whole snapshot with that first value,
discarding every other entry and every prior field. -/
theorem init_state_replaces (w : World) (k : Nat) (entries : List (String × Presence))
    (p : Presence) (ha : listenerAlive w k = true)
    (hfirst : (entries.map Prod.snd).head? = some p) :
    (step w (Ev.sockMsg k (IncomingMsg.event (EventBody.initState entries)))).data = p := by
  simp [step, ha, onMessage, handleEvent, hfirst]

/-- Witness for C2: a two-entry mapping yields exactly the first entry's
Presence, discarding the second entry and the prior snapshot. -/
theorem init_state_replaces_witness :
    listenerAlive sampleWorld 1 = true ∧
    (step sampleWorld (Ev.sockMsg 1 (IncomingMsg.event (EventBody.initState
        [("id1", samplePresence2), ("id2", samplePresence)])))).data = samplePresence2 :=
  ⟨by decide,
   init_state_replaces sampleWorld 1 [("id1", samplePresence2), ("id2", samplePresence)]
     samplePresence2 (by decide) rfl⟩

/-- C6: with no initial Presence, useLanyard returns null before creating any
client state: there is no World at all, hence no connection, no listeners, no
timers and no observable snapshot. -/
theorem inert_without_initial_presence (userId : String) (isServer : Bool) :
    useLanyard userId none isServer = none :=
  rfl

/-- C7: an incoming message whose opcode is neither 0 (Event) nor 1 (Hello)
is ignored, and an Event message whose type tag is neither INIT_STATE nor
PRESENCE_UPDATE is ignored: the whole world — snapshot, timers, connection —
is left unchanged. -/
theorem unrecognized_messages_ignored (w : World) (k : Nat) :
    (∀ m : IncomingMsg, opOf m ≠ 0 → opOf m ≠ 1 →
        step w (Ev.sockMsg k m) = w) ∧
    (∀ body : EventBody, tagOf body ≠ "INIT_STATE" → tagOf body ≠ "PRESENCE_UPDATE" →
        step w (Ev.sockMsg k (IncomingMsg.event body)) = w) := by
  constructor
  · intro m h0 h1
    cases m with
    | hello interval => exact absurd rfl h1
    | event body => exact absurd rfl h0
    | otherOp n =>
        show (if listenerAlive w k then onMessage w (IncomingMsg.otherOp n) else w) = w
        split <;> rfl
  · intro body hInit hUpd
    cases body with
    | initState es => exact absurd rfl hInit
    | presenceUpdate u => exact absurd rfl hUpd
    | otherEvent t =>
        show (if listenerAlive w k then onMessage w (IncomingMsg.event (EventBody.otherEvent t)) else w) = w
        split <;> rfl

/-- Witness for C7: a message with opcode 4 and an Event with an unknown tag
both leave the concrete world untouched. -/
theorem unrecognized_messages_ignored_witness :
    step sampleWorld (Ev.sockMsg 1 (IncomingMsg.otherOp 4)) = sampleWorld ∧
    step sampleWorld (Ev.sockMsg 1 (IncomingMsg.event (EventBody.otherEvent "SOMETHING")))
        = sampleWorld :=
  ⟨(unrecognized_messages_ignored sampleWorld 1).1 (IncomingMsg.otherOp 4)
      (by decide) (by decide),
   (unrecognized_messages_ignored sampleWorld 1).2 (EventBody.otherEvent "SOMETHING")
      (by decide) (by decide)⟩

/-- C8: the bootstrap fetch succeeds exactly when the HTTP response is ok and
the body's success flag is set, in which case it returns the body's data field
unchanged; a non-ok response throws the response text and success false throws
the fixed message. -/
theorem bootstrap_fetch_spec (ok : Bool) (text : String) (body : RestResponse) :
    ((getInitialLanyardState ok text body).isOk = true
        ↔ (ok = true ∧ body.success = true)) ∧
    (ok = true → body.success = true →
        getInitialLanyardState ok text body = Except.ok body.data) ∧
    (ok = false → getInitialLanyardState ok text body = Except.error text) ∧
    (ok = true → body.success = false →
        getInitialLanyardState ok text body = Except.error "Lanyard broke") := by
  cases ok <;> cases hb : body.success <;>
    simp [getInitialLanyardState, Except.isOk, Except.toBool, hb]

/-- Witness for C8: concrete success and failure cases. -/
theorem bootstrap_fetch_spec_witness :
    getInitialLanyardState true "body" { data := samplePresence, success := true }
        = Except.ok samplePresence ∧
    getInitialLanyardState false "oops" { data := samplePresence, success := true }
        = Except.error "oops" ∧
    getInitialLanyardState true "body" { data := samplePresence, success := false }
        = Except.error "Lanyard broke" :=
  ⟨(bootstrap_fetch_spec true "body" { data := samplePresence, success := true }).2.1
      rfl rfl,
   (bootstrap_fetch_spec false "oops" { data := samplePresence, success := true }).2.2.1
      rfl,
   (bootstrap_fetch_spec true "body" { data := samplePresence, success := false }).2.2.2
      rfl rfl⟩

/-- C10: the reading-time formatter always renders the integer ceiling of the
minutes estimate followed by the singular text, because the luxon plus/diff
round trip is the identity on whole-minute durations and an integral JS number
prints as a plain integer. -/
theorem reading_time_format (now minutes : ℚ) (n : ℤ) :
    getHumanReadingTime now minutes = toString (⌈minutes⌉ : ℤ) ++ " minute read" ∧
    luxonDiffAsMinutes now (luxonPlusMinutes now n) = (n : ℚ) := by
  have key : ∀ m : ℤ, luxonDiffAsMinutes now (luxonPlusMinutes now m) = (m : ℚ) := by
    intro m
    unfold luxonPlusMinutes luxonDiffAsMinutes
    rw [add_sub_cancel_left]
    exact mul_div_cancel_right₀ _ (by norm_num)
  constructor
  · unfold getHumanReadingTime
    rw [key ⌈minutes⌉]
    simp [jsNumberToString, Rat.den_intCast, Rat.num_intCast]
  · exact key n

/-- C3: every close event on the active connection immediately and
unconditionally triggers exactly one new connection attempt — no backoff, no
retry limit, no clean/error distinction (the close listener body is the same
for every close) — after aborting the old generation's listeners; and the new
connection's open event sends exactly one Initialize message carrying exactly
the one subscribed user id, without waiting for Hello. -/
theorem close_reconnects_and_resubscribes (w : World) (k : Nat)
    (hwf : wf w = true) (hs : w.socket = some k) (ha : listenerAlive w k = true) :
    (step w (Ev.sockClose k)).connCount = w.connCount + 1 ∧
    (step w (Ev.sockClose k)).socket = some (w.connCount + 1) ∧
    (step w (Ev.sockClose k)).cleanupGen = w.connCount + 1 ∧
    w.cleanupGen ∈ (step w (Ev.sockClose k)).abortedGens ∧
    listenerAlive (step w (Ev.sockClose k)) k = false ∧
    (step w (Ev.sockClose k)).sent = w.sent ∧
    (step (step w (Ev.sockClose k)) (Ev.sockOpen (w.connCount + 1))).sent
        = (w.connCount + 1, SentMsg.subscribe [w.userId]) :: w.sent ∧
    serializeSent (SentMsg.subscribe [w.userId])
        = "\x7b\"op\":2,\"d\":\x7b\"subscribe_to_ids\":[" ++ ("\"" ++ w.userId ++ "\"")
            ++ "]\x7d\x7d" := by
  obtain ⟨hab, htm, hsk, hgc⟩ := wf_spec w hwf
  obtain ⟨hkg, hkc⟩ := hsk k hs
  rw [step_sockClose_eq w k ha]
  have hmem : w.cleanupGen ∈ (connect (abortGen w w.cleanupGen)).abortedGens :=
    mem_abortGen w w.cleanupGen
  have hkmem : decide (k ∈ (connect (abortGen w w.cleanupGen)).abortedGens) = true := by
    rw [hkg]
    simpa using hmem
  have halive := alive_after_reconnect w hwf
  refine ⟨rfl, rfl, rfl, hmem, ?_, rfl, ?_, rfl⟩
  · rw [listenerAlive, hkmem]
    simp
  · rw [step]
    rw [if_pos halive]
    rfl

/-- Witness for C3: a concrete close on the live first connection yields the
second connection, and its open event sends exactly the one Initialize packet
with the single subscribed id, whose wire text is checked literally. -/
theorem close_reconnects_and_resubscribes_witness :
    (step sampleWorld (Ev.sockClose 1)).connCount = 2 ∧
    (step sampleWorld (Ev.sockClose 1)).socket = some 2 ∧
    (step (step sampleWorld (Ev.sockClose 1)) (Ev.sockOpen 2)).sent
        = [(2, SentMsg.subscribe ["223703707118731264"])] ∧
    serializeSent (SentMsg.subscribe ["223703707118731264"])
        = "\x7b\"op\":2,\"d\":\x7b\"subscribe_to_ids\":[\"223703707118731264\"]\x7d\x7d" :=
  ⟨(close_reconnects_and_resubscribes sampleWorld 1 (by decide) (by decide) (by decide)).1,
   (close_reconnects_and_resubscribes sampleWorld 1 (by decide) (by decide) (by decide)).2.1,
   (close_reconnects_and_resubscribes sampleWorld 1 (by decide) (by decide) (by decide)).2.2.2.2.2.2.1,
   by decide⟩

/-- Counterexample to C4 as stated: on the concrete trace open, Hello(30000),
close, the prior epoch's heartbeat timer is still pending after the close
(nothing cleared it), and its next firing — before any Hello arrived on the
new connection — sends a heartbeat payload. -/
theorem stale_heartbeat_after_close_counterexample :
    (run sampleWorld [Ev.sockOpen 1, Ev.sockMsg 1 (IncomingMsg.hello 30000),
        Ev.sockClose 1]).activeTimers = [(0, 30000)] ∧
    (run sampleWorld [Ev.sockOpen 1, Ev.sockMsg 1 (IncomingMsg.hello 30000),
        Ev.sockClose 1]).heartbeatInterval = some 0 ∧
    countHeartbeats (run sampleWorld [Ev.sockOpen 1, Ev.sockMsg 1 (IncomingMsg.hello 30000),
        Ev.sockClose 1]).sent = 0 ∧
    countHeartbeats (step (run sampleWorld [Ev.sockOpen 1,
        Ev.sockMsg 1 (IncomingMsg.hello 30000), Ev.sockClose 1]) (Ev.timerFire 0)).sent
        = 1 := by
  decide

/-- C4 as amended: handling a close tears down only the old generation's
listeners, not the heartbeat timer — the prior epoch's timer stays pending
across the reconnect (its firings keep sending heartbeats through the current
socket variable) and is cleared only when the first Hello of the new
connection arrives, or by teardown. -/
theorem heartbeat_timer_survives_close_until_new_hello (w : World) (k : Nat)
    (hwf : wf w = true) (_hs : w.socket = some k) (ha : listenerAlive w k = true) :
    (step w (Ev.sockClose k)).activeTimers = w.activeTimers ∧
    (step w (Ev.sockClose k)).heartbeatInterval = w.heartbeatInterval ∧
    (∀ h, (step (step w (Ev.sockClose k))
        (Ev.sockMsg (w.connCount + 1) (IncomingMsg.hello h))).activeTimers
          = [(w.nextTimerId, h)]) ∧
    (teardown (step w (Ev.sockClose k))).activeTimers = [] := by
  obtain ⟨hab, htm, hsk, hgc⟩ := wf_spec w hwf
  rw [step_sockClose_eq w k ha]
  have halive := alive_after_reconnect w hwf
  have hclear : ∀ x : World, x.activeTimers = w.activeTimers →
      x.heartbeatInterval = w.heartbeatInterval → (clearHeartbeatTimer x).activeTimers = [] := by
    intro x hx1 hx2
    refine clearHeartbeatTimer_activeTimers_eq_nil x ?_
    intro t ht
    rw [hx1] at ht
    rw [hx2]
    exact htm t ht
  refine ⟨rfl, rfl, ?_, ?_⟩
  · intro h
    rw [step, if_pos halive]
    show ((w.nextTimerId, h) ::
        (clearHeartbeatTimer (connect (abortGen w w.cleanupGen))).activeTimers) = _
    rw [hclear (connect (abortGen w w.cleanupGen)) rfl rfl]
  · exact hclear _ rfl rfl

/-- Witness for C4's amended theorem at a concrete world. -/
theorem heartbeat_timer_survives_close_until_new_hello_witness :
    (step sampleWorld (Ev.sockClose 1)).activeTimers = sampleWorld.activeTimers ∧
    (step (step sampleWorld (Ev.sockClose 1))
        (Ev.sockMsg 2 (IncomingMsg.hello 30000))).activeTimers = [(0, 30000)] ∧
    (teardown (step sampleWorld (Ev.sockClose 1))).activeTimers = [] :=
  ⟨(heartbeat_timer_survives_close_until_new_hello sampleWorld 1
      (by decide) (by decide) (by decide)).1,
   (heartbeat_timer_survives_close_until_new_hello sampleWorld 1
      (by decide) (by decide) (by decide)).2.2.1 30000,
   (heartbeat_timer_survives_close_until_new_hello sampleWorld 1
      (by decide) (by decide) (by decide)).2.2.2⟩

/-- C5: heartbeat cadence.  First, a client that has received no Hello yet has
sent zero heartbeats (starting from mount, under any event sequence with no
Hello).  Second, on every Hello carrying interval h the client cancels the
previously running timer and is left with exactly one pending periodic timer
of period h; each firing of that timer sends exactly one fixed heartbeat
payload, and the timer stays pending across every later non-Hello event (it
runs until the next Hello or teardown).  Third, the heartbeat wire text is
exactly the op 3 literal with no d field. -/
theorem heartbeat_cadence :
    (∀ userId p evs, evs.all (fun e => !isHelloEv e) = true →
        countHeartbeats (run (connect (initWorld userId p)) evs).sent = 0) ∧
    (∀ w k h, wf w = true → listenerAlive w k = true →
        (step w (Ev.sockMsg k (IncomingMsg.hello h))).heartbeatInterval
            = some w.nextTimerId ∧
        (step w (Ev.sockMsg k (IncomingMsg.hello h))).activeTimers
            = [(w.nextTimerId, h)] ∧
        (∀ s, w.socket = some s →
            (step (step w (Ev.sockMsg k (IncomingMsg.hello h)))
                (Ev.timerFire w.nextTimerId)).sent
              = (s, SentMsg.heartbeat) :: w.sent) ∧
        (∀ e, isHelloEv e = false →
            (step (step w (Ev.sockMsg k (IncomingMsg.hello h))) e).activeTimers
              = [(w.nextTimerId, h)])) ∧
    serializeSent SentMsg.heartbeat = "\x7b\"op\":3\x7d" := by
  refine ⟨?_, ?_, rfl⟩
  · intro userId p evs hall
    have h := run_no_heartbeat_of_no_hello evs (connect (initWorld userId p)) rfl hall
    rw [h.2]
    rfl
  · intro w k h hwf ha
    obtain ⟨hab, htm, hsk, hgc⟩ := wf_spec w hwf
    have hstep : step w (Ev.sockMsg k (IncomingMsg.hello h)) = onMessage w (IncomingMsg.hello h) := by
      simp [step, ha]
    have hnil : (clearHeartbeatTimer w).activeTimers = [] :=
      clearHeartbeatTimer_activeTimers_eq_nil w htm
    have htimers : (step w (Ev.sockMsg k (IncomingMsg.hello h))).activeTimers
        = [(w.nextTimerId, h)] := by
      rw [hstep]
      show (w.nextTimerId, h) :: (clearHeartbeatTimer w).activeTimers = _
      rw [hnil]
    refine ⟨by rw [hstep]; rfl, htimers, ?_, ?_⟩
    · intro s hsock
      have hany : (step w (Ev.sockMsg k (IncomingMsg.hello h))).activeTimers.any
          (fun t => t.1 = w.nextTimerId) = true := by
        rw [htimers]
        simp
      have hsock2 : (step w (Ev.sockMsg k (IncomingMsg.hello h))).socket = some s := by
        rw [hstep]; exact hsock
      have hfire : ∀ x : World, x.activeTimers.any (fun t => t.1 = w.nextTimerId) = true →
          x.socket = some s →
          (step x (Ev.timerFire w.nextTimerId)).sent = (s, SentMsg.heartbeat) :: x.sent := by
        intro x h1 h2
        rw [step, if_pos h1, h2]
      rw [hfire (step w (Ev.sockMsg k (IncomingMsg.hello h))) hany hsock2, hstep]
      rfl
    · intro e he
      rw [step_activeTimers_of_not_hello _ e he, htimers]

/-- Witness for C5: a mounted client with no Hello sends no heartbeat on a
concrete trace, and a concrete Hello leaves exactly the one 30000 ms timer. -/
theorem heartbeat_cadence_witness :
    countHeartbeats (run (connect (initWorld "u" samplePresence))
        [Ev.sockOpen 1, Ev.timerFire 0]).sent = 0 ∧
    (step sampleWorld (Ev.sockMsg 1 (IncomingMsg.hello 30000))).activeTimers
        = [(0, 30000)] :=
  ⟨heartbeat_cadence.1 "u" samplePresence [Ev.sockOpen 1, Ev.timerFire 0] (by decide),
   (heartbeat_cadence.2.1 sampleWorld 1 30000 (by decide) (by decide)).2.1⟩

/-- Two worlds agreeing on every field are equal. -/
theorem World.ext11 (a b : World)
    (h1 : a.userId = b.userId) (h2 : a.data = b.data) (h3 : a.connCount = b.connCount)
    (h4 : a.cleanupGen = b.cleanupGen) (h5 : a.abortedGens = b.abortedGens)
    (h6 : a.socket = b.socket) (h7 : a.closedSockets = b.closedSockets)
    (h8 : a.heartbeatInterval = b.heartbeatInterval) (h9 : a.activeTimers = b.activeTimers)
    (h10 : a.nextTimerId = b.nextTimerId) (h11 : a.sent = b.sent) : a = b := by
  cases a
  cases b
  simp_all

/-- Teardown's closed-socket list when a socket exists. -/
theorem teardown_closedSockets (w : World) (s : Nat) (hsock : w.socket = some s) :
    (teardown w).closedSockets
      = if s ∈ w.closedSockets then w.closedSockets else s :: w.closedSockets := by
  show (match w.socket with
      | none => w.closedSockets
      | some s2 => if s2 ∈ w.closedSockets then w.closedSockets else s2 :: w.closedSockets) = _
  rw [hsock]

/-- Teardown's closed-socket list when no socket was ever created. -/
theorem teardown_closedSockets_none (w : World) (hsock : w.socket = none) :
    (teardown w).closedSockets = w.closedSockets := by
  show (match w.socket with
      | none => w.closedSockets
      | some s2 => if s2 ∈ w.closedSockets then w.closedSockets else s2 :: w.closedSockets) = _
  rw [hsock]

/-- After teardown the current socket is closed. -/
theorem mem_teardown_closedSockets (w : World) (s : Nat) (hsock : w.socket = some s) :
    s ∈ (teardown w).closedSockets := by
  rw [teardown_closedSockets w s hsock]
  by_cases hm : s ∈ w.closedSockets
  · rw [if_pos hm]; exact hm
  · rw [if_neg hm]; exact List.mem_cons_self _ _

/-- After teardown the current AbortController generation is aborted. -/
theorem mem_teardown_abortedGens (w : World) : w.cleanupGen ∈ (teardown w).abortedGens :=
  mem_abortGen (markClosed w) (markClosed w).cleanupGen

/-- Teardown's aborted generations, explicitly. -/
theorem teardown_abortedGens (w : World) :
    (teardown w).abortedGens
      = if w.cleanupGen ∈ w.abortedGens then w.abortedGens
        else w.cleanupGen :: w.abortedGens :=
  rfl

/-- Teardown's pending timers, explicitly. -/
theorem teardown_activeTimers (w : World) :
    (teardown w).activeTimers
      = match w.heartbeatInterval with
        | none => w.activeTimers
        | some tid => w.activeTimers.filter (fun t => decide (t.1 ≠ tid)) :=
  rfl

/-- Teardown is idempotent: a second run closes an already closed socket,
aborts an already aborted controller and clears an already cleared timer, all
of which are no-ops. -/
theorem teardown_idem (w : World) : teardown (teardown w) = teardown w := by
  refine World.ext11 _ _ rfl rfl rfl rfl ?_ rfl ?_ rfl ?_ rfl rfl
  · rw [teardown_abortedGens (teardown w)]
    have hmem : (teardown w).cleanupGen ∈ (teardown w).abortedGens :=
      mem_teardown_abortedGens w
    rw [if_pos hmem]
  · cases hsock : w.socket with
    | none =>
        have h1 : (teardown w).socket = none := hsock
        rw [teardown_closedSockets_none (teardown w) h1]
    | some s =>
        have h1 : (teardown w).socket = some s := hsock
        rw [teardown_closedSockets (teardown w) s h1,
          if_pos (mem_teardown_closedSockets w s hsock)]
  · rw [teardown_activeTimers (teardown w)]
    cases hhb : w.heartbeatInterval with
    | none =>
        have h1 : (teardown w).heartbeatInterval = none := hhb
        rw [h1]
    | some tid =>
        have h1 : (teardown w).heartbeatInterval = some tid := hhb
        rw [h1, teardown_activeTimers w, hhb]
        simp [List.filter_filter, Bool.and_self]

/-- C9: teardown is a total function (nothing in it can throw), running it
twice equals running it once, and — for any well-formed world, including one
where no connection was ever opened — afterwards the current connection (if
any) is closed, the current generation's listeners are aborted and no
heartbeat timer is pending; on a never-connected world it does nothing but
abort the initial controller. -/
theorem teardown_idempotent_and_safe :
    (∀ w, teardown (teardown w) = teardown w) ∧
    (∀ w, wf w = true →
        (∀ s, w.socket = some s → s ∈ (teardown w).closedSockets) ∧
        w.cleanupGen ∈ (teardown w).abortedGens ∧
        (teardown w).activeTimers = []) ∧
    (∀ userId p,
        teardown (initWorld userId p) = { initWorld userId p with abortedGens := [0] }) := by
  refine ⟨teardown_idem, ?_, ?_⟩
  · intro w hwf
    obtain ⟨-, htm, -, -⟩ := wf_spec w hwf
    refine ⟨fun s hs => mem_teardown_closedSockets w s hs, mem_teardown_abortedGens w, ?_⟩
    exact clearHeartbeatTimer_activeTimers_eq_nil
      (abortGen (markClosed w) (markClosed w).cleanupGen) htm
  · intro userId p
    rfl

/-- Witness for C9 at concrete worlds: double teardown of the live client
equals single teardown, the socket is closed, the generation aborted, no timer
pends, and teardown of a never-connected world is safe. -/
theorem teardown_idempotent_and_safe_witness :
    teardown (teardown sampleWorld) = teardown sampleWorld ∧
    1 ∈ (teardown sampleWorld).closedSockets ∧
    1 ∈ (teardown sampleWorld).abortedGens ∧
    (teardown sampleWorld).activeTimers = [] ∧
    teardown (initWorld "u" samplePresence)
        = { initWorld "u" samplePresence with abortedGens := [0] } :=
  ⟨teardown_idempotent_and_safe.1 sampleWorld,
   (teardown_idempotent_and_safe.2.1 sampleWorld (by decide)).1 1 rfl,
   (teardown_idempotent_and_safe.2.1 sampleWorld (by decide)).2.1,
   (teardown_idempotent_and_safe.2.1 sampleWorld (by decide)).2.2,
   teardown_idempotent_and_safe.2.2 "u" samplePresence⟩

/-- Builds the boolean well-formedness check from its components. -/
theorem wf_intro (w : World)
    (h1 : ∀ g ∈ w.abortedGens, g ≤ w.connCount)
    (h2 : ∀ t ∈ w.activeTimers, w.heartbeatInterval = some t.1)
    (h3 : ∀ k, w.socket = some k → k = w.cleanupGen ∧ k = w.connCount)
    (h4 : w.cleanupGen ≤ w.connCount) : wf w = true := by
  rw [wf]
  simp only [Bool.and_eq_true, List.all_eq_true, decide_eq_true_eq]
  refine ⟨⟨⟨h1, h2⟩, ?_⟩, h4⟩
  cases hsock : w.socket with
  | none => rfl
  | some k =>
      obtain ⟨hk1, hk2⟩ := h3 k hsock
      simp [← hk1, ← hk2]

/-- The freshly mounted state is well formed. -/
theorem wf_initWorld (userId : String) (p : Presence) : wf (initWorld userId p) = true :=
  rfl

/-- The state right after the first connect is well formed. -/
theorem wf_mounted (userId : String) (p : Presence) :
    wf (connect (initWorld userId p)) = true :=
  rfl

/-- Well-formedness is preserved by every event-loop step, so it holds in
every state reachable from a mount. -/
theorem wf_step (w : World) (e : Ev) (hwf : wf w = true) : wf (step w e) = true := by
  obtain ⟨h1, h2, h3, h4⟩ := wf_spec w hwf
  cases e with
  | sockOpen k =>
      show wf (if listenerAlive w k then
          match w.socket with
          | some s => { w with sent := (s, SentMsg.subscribe [w.userId]) :: w.sent }
          | none => w
        else w) = true
      split
      · cases hsock : w.socket with
        | none => exact hwf
        | some s =>
            refine wf_intro _ h1 h2 ?_ h4
            intro k2 hk2
            have h5 : some s = some k2 := hk2
            cases Option.some.inj h5
            exact h3 s hsock
      · exact hwf
  | sockMsg k m =>
      show wf (if listenerAlive w k then onMessage w m else w) = true
      split
      · cases m with
        | hello interval =>
            have hnil : (clearHeartbeatTimer w).activeTimers = [] :=
              clearHeartbeatTimer_activeTimers_eq_nil w h2
            have htimers : (onMessage w (IncomingMsg.hello interval)).activeTimers
                = [(w.nextTimerId, interval)] := by
              show (w.nextTimerId, interval) :: (clearHeartbeatTimer w).activeTimers = _
              rw [hnil]
            refine wf_intro _ h1 ?_ ?_ h4
            · intro t ht
              rw [htimers] at ht
              rw [List.mem_singleton.mp ht]
              rfl
            · intro k2 hk2
              exact h3 k2 hk2
        | event body => exact hwf
        | otherOp n => exact hwf
      · exact hwf
  | sockClose k =>
      show wf (if listenerAlive w k then connect (abortGen w w.cleanupGen) else w) = true
      split
      · refine wf_intro _ ?_ h2 ?_ ?_
        · intro g hg
          have hg' : g ∈ (if w.cleanupGen ∈ w.abortedGens then w.abortedGens
              else w.cleanupGen :: w.abortedGens) := hg
          show g ≤ w.connCount + 1
          split at hg'
          · exact le_trans (h1 g hg') (Nat.le_succ _)
          · rcases List.mem_cons.mp hg' with heq | hmem
            · subst heq; omega
            · exact le_trans (h1 g hmem) (Nat.le_succ _)
        · intro k2 hk2
          have h5 : some (w.connCount + 1) = some k2 := hk2
          have h6 := Option.some.inj h5
          exact ⟨h6.symm, h6.symm⟩
        · exact Nat.le_refl _
      · exact hwf
  | timerFire tid =>
      show wf (if w.activeTimers.any (fun t => t.1 = tid) then
          match w.socket with
          | some s => { w with sent := (s, SentMsg.heartbeat) :: w.sent }
          | none => w
        else w) = true
      split
      · cases hsock : w.socket with
        | none => exact hwf
        | some s =>
            refine wf_intro _ h1 h2 ?_ h4
            intro k2 hk2
            have h5 : some s = some k2 := hk2
            cases Option.some.inj h5
            exact h3 s hsock
      · exact hwf

/-- Well-formedness is preserved along any run. -/
theorem wf_run (evs : List Ev) : ∀ w : World, wf w = true → wf (run w evs) = true := by
  induction evs with
  | nil => intro w hwf; exact hwf
  | cons e es ih => intro w hwf; exact ih (step w e) (wf_step w e hwf)
